import Mathlib

/-!
Verification of the auto_vlan network-configuration tool.

This file gives a shallow embedding of the core components of the
repository — hardware-topology detection (`hw_detect.py`), the port
resolver and the swconfig bridge-mode emission (`bridge_modes.py`), and
the automatic port allocator (`orchestrator.py`) — and proves properties
of them.

Python strings are modelled as `List Char` for the parsing helpers
(lexicographic comparison and character classification are on Unicode
code points, as in CPython; `str.strip`/`splitlines` are modelled on the
ASCII whitespace and the newline character, which covers all inputs the
tool deals with; underscores inside Python integer literals are not
modelled).  The `uci` command backend (`UciExecutor`) is not part of the
repository's core sources: per the design document it is an external
collaborator exposing `query(selector) -> optional text` plus a shell
capability used by the switch-enumeration probe, and it is modelled here
as exactly that record of capabilities.  A `none` result of the shell
capability models a raised `FileNotFoundError`/`CalledProcessError`,
which the probe catches.

Exceptions escaping the detection code are modelled by `Except String`:
`Except.error` is a raised `ValueError`.
-/

-- ==================================================================
-- Python-style string helpers over lists of characters
-- ==================================================================

/-- Python `str.strip()` on the left for an arbitrary character class. -/
def stripLeftBy (p : Char → Bool) (s : List Char) : List Char :=
  s.dropWhile p

/-- Python `str.strip(chars)` : drop characters satisfying `p` from both ends. -/
def stripBy (p : Char → Bool) (s : List Char) : List Char :=
  ((s.dropWhile p).reverse.dropWhile p).reverse

/-- Python `str.strip()` (whitespace on both ends). -/
def pyStrip (s : List Char) : List Char :=
  stripBy Char.isWhitespace s

/-- Python `str.strip(cs)` for an explicit character set. -/
def pyStripSet (cs : List Char) (s : List Char) : List Char :=
  stripBy (fun c => cs.contains c) s

/-- Python `str.rstrip(cs)` for an explicit character set. -/
def pyRStripSet (cs : List Char) (s : List Char) : List Char :=
  (s.reverse.dropWhile (fun c => cs.contains c)).reverse

/-- Worker for `pySplitlines`; accumulates the current line reversed. -/
def pySplitlinesGo : List Char → List Char → List (List Char)
  | [], acc => if acc.isEmpty then [] else [acc.reverse]
  | c :: rest, acc =>
    if c = '\n' then acc.reverse :: pySplitlinesGo rest []
    else pySplitlinesGo rest (c :: acc)

/-- Python `str.splitlines()` (modelled on the newline character): no
trailing empty line is produced for a trailing newline. -/
def pySplitlines (s : List Char) : List (List Char) :=
  pySplitlinesGo s []

/-- Worker for `pySplitWs`; accumulates the current field reversed. -/
def pySplitWsGo : List Char → List Char → List (List Char)
  | [], acc => if acc.isEmpty then [] else [acc.reverse]
  | c :: rest, acc =>
    if c.isWhitespace then
      if acc.isEmpty then pySplitWsGo rest []
      else acc.reverse :: pySplitWsGo rest []
    else pySplitWsGo rest (c :: acc)

/-- Python `str.split()` with no argument: split on whitespace runs,
producing no empty fields. -/
def pySplitWs (s : List Char) : List (List Char) :=
  pySplitWsGo s []

/-- Python `s.split(sep, 1)` for a one-character separator: the part
before the first occurrence, and — when the separator occurs — the part
after it. -/
def pySplit1 (sep : Char) : List Char → List Char × Option (List Char)
  | [] => ([], none)
  | c :: rest =>
    if c = sep then ([], some rest)
    else
      let r := pySplit1 sep rest
      (c :: r.1, r.2)

/-- Python `needle in hay` for strings: substring containment. -/
def pyInSub (needle : List Char) : List Char → Bool
  | [] => needle.isEmpty
  | c :: rest => needle.isPrefixOf (c :: rest) || pyInSub needle rest

/-- Fuel-structured worker for `pyReplace`: the fuel only bounds the
recursion depth (one unit per emitted character suffices), keeping the
definition structurally recursive so that it reduces inside the kernel. -/
def pyReplaceGo (pat rep : List Char) : Nat → List Char → List Char
  | 0, s => s
  | _, [] => []
  | fuel + 1, c :: rest =>
    if pat ≠ [] ∧ pat.isPrefixOf (c :: rest) then
      rep ++ pyReplaceGo pat rep fuel ((c :: rest).drop pat.length)
    else
      c :: pyReplaceGo pat rep fuel rest

/-- Python `str.replace(pat, rep)` (all non-overlapping occurrences,
scanned left to right).  An empty pattern leaves the string unchanged;
the source only ever uses the non-empty pattern `"lan"`. -/
def pyReplace (pat rep s : List Char) : List Char :=
  pyReplaceGo pat rep s.length s

/-- Decimal value of a digit string (most significant first). -/
def digitsVal (ds : List Char) : Nat :=
  ds.foldl (fun acc c => 10 * acc + (c.toNat - '0'.toNat)) 0

/-- Parse a non-empty all-digit string, as the digits part of Python `int()`. -/
def pyIntDigits (ds : List Char) : Option Nat :=
  if ds ≠ [] ∧ ds.all Char.isDigit then some (digitsVal ds) else none

/-- The sign-and-digits part of Python `int()`, after whitespace
stripping. -/
def pyIntCharsCore : List Char → Option Int
  | [] => none
  | c :: rest =>
    if c = '-' then (pyIntDigits rest).map (fun n => -(n : Int))
    else if c = '+' then (pyIntDigits rest).map (fun n => (n : Int))
    else (pyIntDigits (c :: rest)).map (fun n => (n : Int))

/-- Python `int(s)`: strip whitespace, optional sign, decimal digits;
`none` models a raised `ValueError`. -/
def pyIntChars (s : List Char) : Option Int :=
  pyIntCharsCore (pyStrip s)

/-- Python `int(s)` on a Lean string. -/
def pyInt (s : String) : Option Int :=
  pyIntChars s.data

/-- Python string truthiness of an optional query result: `None` and the
empty string are falsy. -/
def pyTruthy (v : Option String) : Bool :=
  match v with
  | some s => s ≠ ""
  | none => false

/-- Python `a or dflt` where `a` is an optional string: the default is
taken when the value is `None` or empty. -/
def pyOrStr (v : Option String) (dflt : String) : String :=
  match v with
  | some s => if s = "" then dflt else s
  | none => dflt

/-- Lexicographic comparison of character lists by code point, as CPython
compares strings. -/
def charsLe : List Char → List Char → Bool
  | [], _ => true
  | _ :: _, [] => false
  | a :: as, b :: bs => if a < b then true else if a = b then charsLe as bs else false

/-- Python `<=` on strings (lexicographic by code point). -/
def strLe (a b : String) : Bool :=
  charsLe a.data b.data

-- ==================================================================
-- Data model (models.py / hw_detect.py)
-- ==================================================================

/-- Section `WifiConfig` of `models.py`. -/
structure WifiConfig where
  ssid : String
  password : String
deriving DecidableEq

/-- Section `NetworkConfig` of `models.py`: one VLAN network entry. -/
structure NetworkConfig where
  name : String
  vlan_id : Int
  role : String
  subnet : String
  netmask : String
  «alias» : String := ""
  wifi : Option WifiConfig := none
  ports : List String := []
deriving DecidableEq

/-- Section `SwitchInfo` of `hw_detect.py`: swconfig switch-chip data.
The Python field `wan_port` is typed `int` and every detection path
assigns it an integer, so it is modelled as `Int` (never `None`). -/
structure SwitchInfo where
  name : String
  cpu_port : Int
  cpu_interface : String
  lan_ports : List Int
  wan_port : Int
deriving DecidableEq

/-- Section `HardwareInfo` of `hw_detect.py`. -/
structure HardwareInfo where
  mode : String
  wan_interface : String
  lan_ports : List String
  switch : Option SwitchInfo := none
deriving DecidableEq

/-- Constant `DSA_DEFAULTS` of `hw_detect.py`. -/
def DSA_DEFAULTS : HardwareInfo :=
  { mode := "dsa", wan_interface := "eth0", lan_ports := ["eth1", "eth2"], switch := none }

/-- The external `uci` command collaborator (design doc section 6): a
query capability returning optional text, plus the shell capability used
only by the switch-enumeration probe.  `shell` returns the exit code and
standard output; `none` models a raised subprocess exception, which the
caller catches. -/
structure UciExecutor where
  is_export : Bool
  query : String → Option String
  shell : String → Option (Int × String)

-- ==================================================================
-- Port resolver (_resolve_ports of bridge_modes.py)
-- ==================================================================

/-- The index part of the token resolution in `_resolve_ports`, taking
the already-computed tag flag and base: require the `"lan"` prefix,
delete every occurrence of `"lan"`, parse the rest as an integer and use
it as a 1-based index into `available`.  `none` means the token is
dropped (with only a printed warning in the source). -/
def resolveTokenBase {α : Type} (available : List α) (is_tagged : Bool)
    (base : List Char) : Option (α × Bool) :=
  if ("lan".data).isPrefixOf base then
    match pyIntChars (pyReplace "lan".data [] base) with
    | none => none
    | some n =>
      let idx := n - 1
      if 0 ≤ idx ∧ idx < (available.length : Int) then
        (available[idx.toNat]?).map (fun a => (a, is_tagged))
      else none
  else none

/-- Resolution of one user port token against the available port list —
the body of the loop of `_resolve_ports`: lower-case the token
(`clean_p`), read the tag flag from a `":t"` substring, take the part
before the first `":"` (`base`), and resolve it through
`resolveTokenBase`. -/
def resolveToken {α : Type} (available : List α) (p : String) : Option (α × Bool) :=
  resolveTokenBase available (pyInSub [':', 't'] (p.data.map Char.toLower))
    ((pySplit1 ':' (p.data.map Char.toLower)).1)

/-- Accumulator worker mirroring the `result.append` loop of
`_resolve_ports`. -/
def resolvePortsGo {α : Type} (available : List α) : List String → List (α × Bool) → List (α × Bool)
  | [], acc => acc.reverse
  | p :: rest, acc =>
    match resolveToken available p with
    | some pr => resolvePortsGo available rest (pr :: acc)
    | none => resolvePortsGo available rest acc

/-- Function `_resolve_ports` of `bridge_modes.py`. -/
def resolve_ports {α : Type} (user_ports : List String) (available : List α) : List (α × Bool) :=
  resolvePortsGo available user_ports []

-- ==================================================================
-- Automatic port allocation (NetworkOrchestrator._auto_allocate_ports)
-- ==================================================================

/-- The allocation loop of `_auto_allocate_ports`: networks with an empty
`ports` list pop the first free logical index (when one remains) and
append the untagged token `lan<idx>`.  Returns the updated networks and
the remaining pool. -/
def alloc_loop : List NetworkConfig → List Nat → List NetworkConfig × List Nat
  | [], pool => ([], pool)
  | net :: rest, pool =>
    if net.ports.isEmpty then
      match pool with
      | [] =>
        let r := alloc_loop rest []
        (net :: r.1, r.2)
      | idx :: pool1 =>
        let net1 := { net with ports := net.ports ++ ["lan" ++ toString idx] }
        let r := alloc_loop rest pool1
        (net1 :: r.1, r.2)
    else
      let r := alloc_loop rest pool
      (net :: r.1, r.2)

/-- The leftover distribution of `_auto_allocate_ports`: the first
network with `vlan_id == 1` receives the extra tokens appended to its
`ports`; when no such network exists the extras are discarded. -/
def append_leftovers : List NetworkConfig → List String → List NetworkConfig
  | [], _ => []
  | n :: rest, extras =>
    if n.vlan_id = 1 then { n with ports := n.ports ++ extras } :: rest
    else n :: append_leftovers rest extras

/-- Method `NetworkOrchestrator._auto_allocate_ports` of
`orchestrator.py`, as a function from the network list to the updated
network list (the Python code mutates each entry's `ports` in place). -/
def auto_allocate_ports (networks : List NetworkConfig) (hw : HardwareInfo) : List NetworkConfig :=
  let total_ports := hw.lan_ports.length
  if total_ports = 0 then networks
  else
    let r := alloc_loop networks (List.range' 1 total_ports)
    if r.2.isEmpty then r.1
    else append_leftovers r.1 (r.2.map (fun i => "lan" ++ toString i))

-- ==================================================================
-- Hardware detection (hw_detect.py)
-- ==================================================================

/-- Function `_detect_is_swconfig`: a truthy grep for a switch section. -/
def detect_is_swconfig (uci : UciExecutor) : Bool :=
  pyTruthy (uci.query "show network | grep '=switch'")

/-- Function `_detect_is_dsa_config`: a truthy grep for a bridge-vlan
section. -/
def detect_is_dsa_config (uci : UciExecutor) : Bool :=
  pyTruthy (uci.query "show network | grep '=bridge-vlan'")

/-- Function `_detect_dsa_lan_ports`: the bridge device port list, the
`lan_dev` fallback, or the default pair. -/
def detect_dsa_lan_ports (uci : UciExecutor) : List String :=
  let r1 := uci.query "get network.@device[0].ports"
  if pyTruthy r1 then (pySplitWs (r1.getD "").data).map (fun l => String.mk l)
  else
    let r2 := uci.query "get network.lan_dev.ports"
    if pyTruthy r2 then (pySplitWs (r2.getD "").data).map (fun l => String.mk l)
    else ["eth1", "eth2"]

/-- Function `_detect_dsa`: WAN interface from `device` then `ifname`
then `"eth0"`; LAN ports sorted ascending. -/
def detect_dsa (uci : UciExecutor) : HardwareInfo :=
  let wan := pyOrStr (uci.query "get network.wan.device")
      (pyOrStr (uci.query "get network.wan.ifname") "eth0")
  let lan_ports := List.insertionSort (fun a b => strLe a b = true) (detect_dsa_lan_ports uci)
  { mode := "dsa", wan_interface := wan, lan_ports := lan_ports, switch := none }

/-- The mutable scan state of `_detect_swconfig` (its local variables
`cpu_port`, `lan_ports`, `wan_port`). -/
structure SwScan where
  cpu_port : Int
  lan_ports : List Int
  wan_port : Int
deriving DecidableEq

/-- Extraction of the quoted `ports` values from the grep output —
the `all_vlan_ports` loop of `_detect_swconfig`. -/
def parse_vlan_configs (q : Option String) : List String :=
  if pyTruthy q then
    (pySplitlines (q.getD "").data).filterMap (fun line =>
      match pySplit1 '=' line with
      | (_, some after) => some (String.mk (pyStripSet ['\x27'] after))
      | (_, none) => none)
  else []

/-- One token of the port-role analysis loop of `_detect_swconfig`.  A
token ending in the tag marker is parsed with a bare `int()` — a
non-numeric remainder raises `ValueError` (modelled as `Except.error`);
other tokens are parsed under a `try`/`except` and appended to the
candidate LAN list when new. -/
def scan_token (s : SwScan) (token : List Char) : Except String SwScan :=
  if ['t'].isSuffixOf token then
    match pyIntChars token.dropLast with
    | some v => .ok { s with cpu_port := v }
    | none =>
      .error ("invalid literal for int() with base 10: " ++ String.mk token.dropLast)
  else
    match pyIntChars token with
    | some p =>
      .ok (if s.lan_ports.contains p then s else { s with lan_ports := s.lan_ports ++ [p] })
    | none => .ok s

/-- The port-role analysis over one VLAN ports string. -/
def scan_ports_str (s : SwScan) (ports_str : String) : Except String SwScan :=
  (pySplitWs ports_str.data).foldlM scan_token s

/-- The port-role analysis over all collected VLAN ports strings. -/
def scan_vlan_ports (strs : List String) (s : SwScan) : Except String SwScan :=
  strs.foldlM scan_ports_str s

/-- One token of the VLAN-2 WAN-identification loop of
`_detect_swconfig`: an untagged numeric token becomes the WAN port and is
removed from the candidate LAN list when present (guarded `try`/`except`,
so no error is possible). -/
def scan_vlan2_token (s : SwScan) (token : List Char) : SwScan :=
  if ['t'].isSuffixOf token then s
  else
    match pyIntChars token with
    | some w =>
      let lp := if s.lan_ports.contains w then s.lan_ports.erase w else s.lan_ports
      { s with wan_port := w, lan_ports := lp }
    | none => s

/-- The VLAN-2 WAN-identification pass of `_detect_swconfig`. -/
def scan_vlan2 (q : Option String) (s : SwScan) : SwScan :=
  if pyTruthy q then (pySplitWs (q.getD "").data).foldl scan_vlan2_token s else s

/-- The complete declarative scan of `_detect_swconfig`: the port-role
analysis starting from `cpu_port = 0`, `lan_ports = []`, `wan_port = 5`,
followed by the VLAN-2 pass. -/
def swconfig_scan (uci : UciExecutor) : Except String SwScan :=
  (scan_vlan_ports
      (parse_vlan_configs (uci.query "show network | grep 'switch_vlan.*ports='"))
      { cpu_port := 0, lan_ports := [], wan_port := 5 }).map
    (scan_vlan2 (uci.query "get network.@switch_vlan[1].ports"))

/-- The extraction of port numbers from the CLI probe output — the
parsing loop of `_detect_swconfig_ports_from_cli` (`IndexError` and
`ValueError` are caught and skip the line). -/
def parse_cli_ports (out : String) : List Int :=
  (pySplitlines out.data).filterMap (fun line =>
    let stripped := pyStrip line
    if ("Port ".data).isPrefixOf stripped then
      match (pySplitWs stripped)[1]? with
      | some w => pyIntChars (pyRStripSet [':'] w)
      | none => none
    else none)

/-- Function `_detect_swconfig_ports_from_cli`: run
`swconfig dev <name> show | grep 'Port '` through the shell capability,
return the sorted de-duplicated port numbers, or `[]` on export mode,
subprocess failure or a non-zero exit code. -/
def detect_swconfig_ports_from_cli (uci : UciExecutor) (switch_name : String) : List Int :=
  if uci.is_export then []
  else
    match uci.shell ("swconfig dev " ++ switch_name ++ " show | grep 'Port '") with
    | none => []
    | some rcout =>
      if rcout.1 ≠ 0 then []
      else List.insertionSort (· ≤ ·) (parse_cli_ports rcout.2).dedup

/-- The ghost-port guard of `_detect_swconfig`: when the candidate LAN
list has at most one member, probe the chip through the CLI; a non-empty
probe result minus the CPU and WAN ports replaces the candidate list when
that difference is non-empty. -/
def ghost_guard (uci : UciExecutor) (switch_name : String) (s : SwScan) : SwScan :=
  if s.lan_ports.length ≤ 1 then
    let hw_ports := detect_swconfig_ports_from_cli uci switch_name
    if hw_ports.isEmpty then s
    else
      let potential_lan := hw_ports.filter (fun p => p != s.cpu_port && p != s.wan_port)
      if potential_lan.isEmpty then s
      else { s with lan_ports := potential_lan }
  else s

/-- The CPU interface derivation of `_detect_swconfig`: the LAN `ifname`
(falling back to the WAN interface) with any `.VID` suffix stripped. -/
def cpu_interface_of (uci : UciExecutor) (wan : String) : String :=
  let ci := pyOrStr (uci.query "get network.lan.ifname") wan
  if ci.data.contains '.' then String.mk (pySplit1 '.' ci.data).1 else ci

/-- The tail of `_detect_swconfig` after a successful scan: the
ghost-port guard, the `[1,2,3,4]` default when the LAN list is still
empty, the CPU interface derivation, the final ascending sort, and the
assembly of the `HardwareInfo`. -/
def detect_swconfig_post (uci : UciExecutor) (s2 : SwScan) : HardwareInfo :=
  let switch_name := pyOrStr (uci.query "get network.@switch[0].name") "switch0"
  let wan := pyOrStr (uci.query "get network.wan.ifname") "eth0"
  let s3 := ghost_guard uci switch_name s2
  let lan := if s3.lan_ports.isEmpty then [1, 2, 3, 4] else s3.lan_ports
  let ci := cpu_interface_of uci wan
  let lan_sorted := List.insertionSort (· ≤ ·) lan
  { mode := "swconfig", wan_interface := wan, lan_ports := [],
    switch := some { name := switch_name, cpu_port := s3.cpu_port,
                     cpu_interface := ci, lan_ports := lan_sorted,
                     wan_port := s3.wan_port } }

/-- Function `_detect_swconfig` of `hw_detect.py`: the declarative scan
(whose bare `int()` call can raise, propagated by `map`) followed by the
post-processing. -/
def detect_swconfig (uci : UciExecutor) : Except String HardwareInfo :=
  (swconfig_scan uci).map (detect_swconfig_post uci)

/-- Function `detect_hardware` of `hw_detect.py`: export default, then
swconfig, then DSA (which is also the final fallback). -/
def detect_hardware (uci : UciExecutor) : Except String HardwareInfo :=
  if uci.is_export then .ok DSA_DEFAULTS
  else if detect_is_swconfig uci then detect_swconfig uci
  else if detect_is_dsa_config uci then .ok (detect_dsa uci)
  else .ok (detect_dsa uci)

-- ==================================================================
-- Swconfig bridge mode emission (bridge_modes.py)
-- ==================================================================

/-- One primitive operation sent to the configuration sink. -/
inductive UciOp where
  | set (path value : String)
  | add (config sectionType : String)
  | add_list (path value : String)
deriving DecidableEq

/-- The VLAN ports string composed by
`SwconfigBridgeMode.configure_vlan`: explicit resolved ports plus the
tagged CPU port; or all LAN ports untagged plus the tagged CPU port for
VLAN 1; or the tagged CPU port alone. -/
def swconfig_ports_str (sw : SwitchInfo) (net : NetworkConfig) : String :=
  let cpu_port_str := toString sw.cpu_port ++ "t"
  if net.ports ≠ [] then
    let assignments := resolve_ports net.ports sw.lan_ports
    let p_list := assignments.map (fun a => if a.2 then toString a.1 ++ "t" else toString a.1)
    String.intercalate " " p_list ++ " " ++ cpu_port_str
  else if net.vlan_id = 1 then
    String.intercalate " " (sw.lan_ports.map (fun p => toString p)) ++ " " ++ cpu_port_str
  else cpu_port_str

/-- Method `SwconfigBridgeMode.configure_vlan`: the sequence of sink
operations emitted for one network. -/
def swconfig_configure_vlan (sw : SwitchInfo) (net : NetworkConfig) : List UciOp :=
  [UciOp.add "network" "switch_vlan",
   UciOp.set "network.@switch_vlan[-1].device" sw.name,
   UciOp.set "network.@switch_vlan[-1].vlan" (toString net.vlan_id),
   UciOp.set "network.@switch_vlan[-1].ports" (swconfig_ports_str sw net)]

/-- Method `SwconfigBridgeMode.configure_base`: the switch section plus,
when the WAN port differs from the CPU port, the rebuilt VLAN-2 entry.
(The Python guard `sw.wan_port is not None` is always true, since every
detection path assigns an integer WAN port.) -/
def swconfig_configure_base (sw : SwitchInfo) : List UciOp :=
  [UciOp.set ("network." ++ sw.name) "switch",
   UciOp.set ("network." ++ sw.name ++ ".name") sw.name,
   UciOp.set ("network." ++ sw.name ++ ".reset") "1",
   UciOp.set ("network." ++ sw.name ++ ".enable_vlan") "1"]
  ++ (if sw.wan_port ≠ sw.cpu_port then
        [UciOp.add "network" "switch_vlan",
         UciOp.set "network.@switch_vlan[-1].device" sw.name,
         UciOp.set "network.@switch_vlan[-1].vlan" "2",
         UciOp.set "network.@switch_vlan[-1].ports"
           (toString sw.wan_port ++ " " ++ toString sw.cpu_port ++ "t")]
      else [])

-- ==================================================================
-- Concrete inputs used by witnesses and counterexamples
-- ==================================================================

/-- A user port token of the shape `lan<digits>`, optionally carrying the
`:t` tag suffix. -/
def lanTok (ds : List Char) (tagged : Bool) : String :=
  String.mk ("lan".data ++ ds ++ (if tagged then [':', 't'] else []))

/-- A guest network with no pinned ports (allocator witness input). -/
def c2A : NetworkConfig :=
  { name := "guest", vlan_id := 10, role := "clean", subnet := "192.168.10.1",
    netmask := "255.255.255.0" }

/-- A default-LAN network (`vlan_id = 1`) with no pinned ports. -/
def c2B : NetworkConfig :=
  { name := "lan", vlan_id := 1, role := "proxy", subnet := "192.168.1.1",
    netmask := "255.255.255.0" }

/-- A DSA hardware profile with four detected LAN ports. -/
def c2hw : HardwareInfo :=
  { mode := "dsa", wan_interface := "eth0", lan_ports := ["p1", "p2", "p3", "p4"] }

/-- A `vlan_id = 1` network with a user-pinned port list. -/
def c9net : NetworkConfig :=
  { name := "lan", vlan_id := 1, role := "proxy", subnet := "192.168.1.1",
    netmask := "255.255.255.0", ports := ["lan1:t"] }

/-- A DSA hardware profile with two detected LAN ports. -/
def c9hw : HardwareInfo :=
  { mode := "dsa", wan_interface := "eth0", lan_ports := ["p1", "p2"] }

/-- The switch-chip profile of the spec scenarios: LAN ports 1,2,3, CPU
port 5, WAN port 0. -/
def c6sw : SwitchInfo :=
  { name := "switch0", cpu_port := 5, cpu_interface := "eth0",
    lan_ports := [1, 2, 3], wan_port := 0 }

/-- A VLAN-1 network with no explicit ports. -/
def c6net1 : NetworkConfig :=
  { name := "lan", vlan_id := 1, role := "proxy", subnet := "192.168.1.1",
    netmask := "255.255.255.0" }

/-- A VLAN-3 network with no explicit ports. -/
def c6net3 : NetworkConfig :=
  { name := "iot", vlan_id := 3, role := "isolate", subnet := "192.168.3.1",
    netmask := "255.255.255.0" }

/-- The scenario switch chip with the WAN port equal to the CPU port. -/
def c7swEq : SwitchInfo :=
  { name := "switch0", cpu_port := 5, cpu_interface := "eth0",
    lan_ports := [1, 2, 3], wan_port := 5 }

/-- A query collaborator in export mode (no live target). -/
def uciExport : UciExecutor :=
  { is_export := true, query := fun _ => none, shell := fun _ => none }

/-- A live collaborator whose configuration holds one switch_vlan entry
with the malformed tag-marked port token `xt`. -/
def c1uci : UciExecutor :=
  { is_export := false,
    query := fun s =>
      if s = "show network | grep '=switch'" then some "network.switch0=switch"
      else if s = "show network | grep 'switch_vlan.*ports='" then
        some "network.@switch_vlan[0].ports='xt'"
      else none,
    shell := fun _ => none }

/-- A live collaborator whose declared configuration yields the single
candidate LAN port 1 (CPU 5, WAN 0) and whose chip enumeration reports
exactly the ports 0 and 5. -/
def c3cexUci : UciExecutor :=
  { is_export := false,
    query := fun s =>
      if s = "show network | grep 'switch_vlan.*ports='" then
        some "network.@switch_vlan[0].ports='1 5t'"
      else if s = "get network.@switch_vlan[1].ports" then some "0 5t"
      else none,
    shell := fun _ => some (0, "Port 0:\nPort 5:\n") }

/-- A live collaborator with no switch_vlan configuration at all, whose
chip enumeration reports the ports 0, 1 and 4. -/
def c10uci : UciExecutor :=
  { is_export := false,
    query := fun _ => none,
    shell := fun _ => some (0, "Port 0:\nPort 1:\nPort 4:\n") }

/-- The CLI-probed port set of the detected switch minus the hardcoded
default CPU port 0 and WAN port 5 — the set the ghost-port guard keeps
when the scan found no switch_vlan ports at all. -/
def cliKeep (uci : UciExecutor) : List Int :=
  (detect_swconfig_ports_from_cli uci
      (pyOrStr (uci.query "get network.@switch[0].name") "switch0")).filter
    (fun p => p != 0 && p != 5)

/-- A query map declaring three LAN ports (1,2,3), CPU 5 and WAN 0. -/
def c3q : String → Option String := fun s =>
  if s = "show network | grep 'switch_vlan.*ports='" then
    some "network.@switch_vlan[0].ports='1 2 3 5t'"
  else if s = "get network.@switch_vlan[1].ports" then some "0 5t"
  else none

/-- The three-LAN-port collaborator with a failing shell capability. -/
def c3wUciA : UciExecutor :=
  { is_export := false, query := c3q, shell := fun _ => none }

/-- The same declared configuration as `c3wUciA` but with a shell whose
chip enumeration would report eight ports, including ghost ports. -/
def c3wUciB : UciExecutor :=
  { is_export := false, query := c3q,
    shell := fun _ =>
      some (0, "Port 0:\nPort 1:\nPort 2:\nPort 3:\nPort 4:\nPort 5:\nPort 6:\nPort 7:\n") }

/-- A collaborator declaring a single LAN port (1, CPU 5, WAN 0) whose
chip enumeration reports ports 0 through 5. -/
def c3wUciC : UciExecutor :=
  { is_export := false,
    query := fun s =>
      if s = "show network | grep 'switch_vlan.*ports='" then
        some "network.@switch_vlan[0].ports='1 5t'"
      else if s = "get network.@switch_vlan[1].ports" then some "0 5t"
      else none,
    shell := fun _ =>
      some (0, "Port 0:\nPort 1:\nPort 2:\nPort 3:\nPort 4:\nPort 5:\n") }

-- ==================================================================
-- Helper lemmas
-- ==================================================================

theorem ne_of_isDigit {c d : Char} (h : c.isDigit = true) (hd : d.isDigit = false) :
    c ≠ d := by
  intro he
  rw [he, hd] at h
  cases h

theorem isDigit_toLower {c : Char} (h : c.isDigit = true) : c.toLower = c := by
  simp only [Char.isDigit, ge_iff_le, Bool.and_eq_true, decide_eq_true_eq] at h
  have h2 : c.val.toNat ≤ (57 : UInt32).toNat := h.2
  have h57 : (57 : UInt32).toNat = 57 := rfl
  rw [h57] at h2
  simp only [Char.toLower, Char.toNat]
  rw [if_neg]
  intro hc
  have hc2 : 65 ≤ c.val.toNat ∧ c.val.toNat ≤ 90 := by exact_mod_cast hc
  omega

theorem isWhitespace_eq_false_of_isDigit {c : Char} (h : c.isDigit = true) :
    c.isWhitespace = false := by
  by_contra hw
  have hw2 : c.isWhitespace = true := by
    cases hh : c.isWhitespace
    · exact absurd hh hw
    · rfl
  simp only [Char.isWhitespace, Bool.or_eq_true, decide_eq_true_eq] at hw2
  rcases hw2 with ((h1 | h1) | h1) | h1 <;> (subst h1; cases h)

theorem dropWhile_eq_self_of {p : Char → Bool} {s : List Char}
    (h : ∀ c ∈ s, p c = false) : s.dropWhile p = s := by
  cases s with
  | nil => rfl
  | cons a l =>
    rw [List.dropWhile_cons, h a (List.mem_cons_self a l)]
    simp

theorem pyStrip_of_digits {ds : List Char} (h : ∀ c ∈ ds, c.isDigit = true) :
    pyStrip ds = ds := by
  have hf : ∀ c ∈ ds, c.isWhitespace = false :=
    fun c hc => isWhitespace_eq_false_of_isDigit (h c hc)
  unfold pyStrip stripBy
  rw [dropWhile_eq_self_of hf, dropWhile_eq_self_of (fun c hc => hf c (List.mem_reverse.mp hc)),
    List.reverse_reverse]

theorem pyIntChars_of_digits {ds : List Char} (hne : ds ≠ [])
    (h : ∀ c ∈ ds, c.isDigit = true) :
    pyIntChars ds = some ((digitsVal ds : Nat) : Int) := by
  unfold pyIntChars
  rw [pyStrip_of_digits h]
  cases ds with
  | nil => exact absurd rfl hne
  | cons c rest =>
    have hc : c.isDigit = true := h c (List.mem_cons_self c rest)
    simp only [pyIntCharsCore]
    rw [if_neg (ne_of_isDigit hc (by decide)), if_neg (ne_of_isDigit hc (by decide))]
    simp only [pyIntDigits]
    rw [if_pos ⟨by simp, List.all_eq_true.mpr (fun x hx => h x hx)⟩]
    rfl

theorem isPrefixOf_append_self {α : Type} [DecidableEq α] (a s : List α) :
    a.isPrefixOf (a ++ s) = true := by
  rw [List.isPrefixOf_iff_prefix]
  exact List.prefix_append a s

theorem pyInSub_eq_false {n0 : Char} {nr s : List Char}
    (h : ∀ c ∈ s, c ≠ n0) : pyInSub (n0 :: nr) s = false := by
  induction s with
  | nil => rfl
  | cons c rest ih =>
    unfold pyInSub
    rw [ih (fun x hx => h x (List.mem_cons_of_mem c hx))]
    have : (n0 :: nr).isPrefixOf (c :: rest) = false := by
      simp only [List.isPrefixOf, Bool.and_eq_false_iff]
      left
      exact beq_false_of_ne (Ne.symm (h c (List.mem_cons_self c rest)))
    rw [this]
    rfl

theorem pyInSub_append_self (n s : List Char) : pyInSub n (s ++ n) = true := by
  induction s with
  | nil =>
    cases n with
    | nil => rfl
    | cons x xs =>
      have hp : (x :: xs).isPrefixOf (x :: xs) = true := by
        rw [List.isPrefixOf_iff_prefix]
      rw [List.nil_append]
      simp only [pyInSub]
      rw [hp]
      rfl
  | cons c rest ih =>
    cases n with
    | nil => rfl
    | cons x xs =>
      rw [List.cons_append]
      simp only [pyInSub]
      rw [ih]
      simp

theorem pySplit1_no_sep {sep : Char} {s : List Char} (h : ∀ c ∈ s, c ≠ sep) :
    pySplit1 sep s = (s, none) := by
  induction s with
  | nil => rfl
  | cons c rest ih =>
    unfold pySplit1
    rw [if_neg (h c (List.mem_cons_self c rest)),
      ih (fun x hx => h x (List.mem_cons_of_mem c hx))]

theorem pySplit1_first {sep : Char} {a : List Char} (b : List Char)
    (h : ∀ c ∈ a, c ≠ sep) : pySplit1 sep (a ++ sep :: b) = (a, some b) := by
  induction a with
  | nil => simp [pySplit1]
  | cons c rest ih =>
    rw [List.cons_append]
    unfold pySplit1
    rw [if_neg (h c (List.mem_cons_self c rest)),
      ih (fun x hx => h x (List.mem_cons_of_mem c hx))]

theorem pyReplaceGo_lan_no_l {s : List Char} (h : ∀ c ∈ s, c ≠ 'l') :
    ∀ fuel, pyReplaceGo "lan".data [] fuel s = s := by
  induction s with
  | nil => intro fuel; cases fuel <;> rfl
  | cons c rest ih =>
    intro fuel
    cases fuel with
    | zero => rfl
    | succ f =>
      unfold pyReplaceGo
      rw [if_neg, ih (fun x hx => h x (List.mem_cons_of_mem c hx))]
      intro hcond
      have hpre := hcond.2
      rw [show "lan".data = 'l' :: ['a', 'n'] from rfl] at hpre
      simp only [List.isPrefixOf, Bool.and_eq_true, beq_iff_eq] at hpre
      exact h c (List.mem_cons_self c rest) hpre.1.symm

theorem pyReplace_lan_of_digits {ds : List Char} (h : ∀ c ∈ ds, c.isDigit = true) :
    pyReplace "lan".data [] ("lan".data ++ ds) = ds := by
  have hnl : ∀ c ∈ ds, c ≠ 'l' := fun c hc => ne_of_isDigit (h c hc) (by decide)
  have hlen : ("lan".data ++ ds).length = ds.length + 2 + 1 := by
    rw [List.length_append, show ("lan".data).length = 3 from rfl]
    omega
  unfold pyReplace
  rw [hlen, show ("lan".data ++ ds : List Char) = 'l' :: 'a' :: 'n' :: ds from rfl]
  simp only [pyReplaceGo]
  rw [if_pos ⟨by decide, isPrefixOf_append_self "lan".data ds⟩]
  simpa using pyReplaceGo_lan_no_l hnl (ds.length + 2)

theorem map_id_of_fixed {α : Type} (f : α → α) (l : List α) (h : ∀ c ∈ l, f c = c) :
    l.map f = l := by
  induction l with
  | nil => rfl
  | cons c rest ih =>
    rw [List.map_cons, h c (List.mem_cons_self c rest),
      ih (fun x hx => h x (List.mem_cons_of_mem c hx))]

theorem map_toLower_lanTok (ds : List Char) (tag : List Char)
    (h : ∀ c ∈ ds, c.isDigit = true) (htag : ∀ c ∈ tag, c.toLower = c) :
    ("lan".data ++ ds ++ tag).map Char.toLower = "lan".data ++ ds ++ tag := by
  simp only [List.map_append]
  rw [map_id_of_fixed Char.toLower "lan".data (by decide),
    map_id_of_fixed Char.toLower ds (fun c hc => isDigit_toLower (h c hc)),
    map_id_of_fixed Char.toLower tag htag]

theorem resolvePortsGo_eq {α : Type} (available : List α) :
    ∀ (toks : List String) (acc : List (α × Bool)),
      resolvePortsGo available toks acc =
        acc.reverse ++ toks.filterMap (resolveToken available) := by
  intro toks
  induction toks with
  | nil => intro acc; simp [resolvePortsGo]
  | cons p rest ih =>
    intro acc
    cases hp : resolveToken available p with
    | some pr => simp [resolvePortsGo, hp, ih, List.filterMap_cons]
    | none => simp [resolvePortsGo, hp, ih, List.filterMap_cons]

theorem resolve_ports_eq_filterMap {α : Type} (available : List α) (toks : List String) :
    resolve_ports toks available = toks.filterMap (resolveToken available) := by
  unfold resolve_ports
  rw [resolvePortsGo_eq]
  rfl

theorem resolveTokenBase_lan_digits {α : Type} (available : List α) (ds : List Char)
    (tg : Bool) (hne : ds ≠ []) (hdig : ∀ c ∈ ds, c.isDigit = true) :
    resolveTokenBase available tg ("lan".data ++ ds) =
      (if 0 ≤ (digitsVal ds : Int) - 1 ∧ (digitsVal ds : Int) - 1 < (available.length : Int)
       then (available[((digitsVal ds : Int) - 1).toNat]?).map (fun a => (a, tg))
       else none) := by
  unfold resolveTokenBase
  rw [isPrefixOf_append_self "lan".data ds]
  rw [if_pos rfl]
  rw [pyReplace_lan_of_digits hdig, pyIntChars_of_digits hne hdig]

theorem resolveToken_lanTok {α : Type} (available : List α) (ds : List Char) (tg : Bool)
    (hne : ds ≠ []) (hdig : ∀ c ∈ ds, c.isDigit = true) :
    resolveToken available (lanTok ds tg) =
      (if 0 ≤ (digitsVal ds : Int) - 1 ∧ (digitsVal ds : Int) - 1 < (available.length : Int)
       then (available[((digitsVal ds : Int) - 1).toNat]?).map (fun a => (a, tg))
       else none) := by
  have hcolon : ∀ c ∈ "lan".data ++ ds, c ≠ ':' := by
    intro c hc
    rcases List.mem_append.mp hc with hc | hc
    · rw [show ("lan".data : List Char) = ['l', 'a', 'n'] from rfl] at hc
      simp only [List.mem_cons, List.not_mem_nil, or_false] at hc
      rcases hc with h1 | h1 | h1 <;> (subst h1; decide)
    · exact ne_of_isDigit (hdig c hc) (by decide)
  cases tg with
  | true =>
    have htok : (lanTok ds true).data = ("lan".data ++ ds) ++ ':' :: ['t'] := by
      simp [lanTok]
    unfold resolveToken
    rw [htok]
    rw [show (("lan".data ++ ds) ++ ':' :: ['t']).map Char.toLower
        = "lan".data ++ ds ++ [':', 't'] by
      have := map_toLower_lanTok ds [':', 't'] hdig (by decide)
      simpa using this]
    rw [show ("lan".data ++ ds ++ [':', 't'] : List Char)
        = ("lan".data ++ ds) ++ ':' :: ['t'] by simp]
    rw [pySplit1_first ['t'] hcolon]
    rw [pyInSub_append_self [':', 't'] ("lan".data ++ ds)]
    exact resolveTokenBase_lan_digits available ds true hne hdig
  | false =>
    have htok : (lanTok ds false).data = "lan".data ++ ds := by
      simp [lanTok]
    unfold resolveToken
    rw [htok]
    rw [show (("lan".data ++ ds) : List Char).map Char.toLower = "lan".data ++ ds by
      have := map_toLower_lanTok ds [] hdig (by decide)
      simpa using this]
    rw [pySplit1_no_sep hcolon]
    rw [pyInSub_eq_false hcolon]
    exact resolveTokenBase_lan_digits available ds false hne hdig


-- ==================================================================
-- Claim C4 — the port resolver on lan<k> tokens (corrected)
-- ==================================================================

/-- C4 (counterexample to the claim as stated): the token `"lanlan1"` has
a base of the shape `lan<k>` whose `k` (`"lan1"`) is unparsable, so by
the claim it must contribute no result pair; the implementation instead
deletes every occurrence of `"lan"` (not only the prefix), parses the
leftover `"1"` and resolves the token to the first available port. -/
theorem claim_C4_counterexample :
    resolve_ports ["lanlan1"] ["eth1", "eth2"] = [("eth1", false)]
    ∧ [("eth1", false)] ≠ ([] : List (String × Bool)) := by
  constructor
  · rfl
  · decide

/-- C4 (amended): for every available list and every token `lan<ds>` with
`ds` a non-empty digit string of value `k` (with or without the `:t`
suffix): if `1 ≤ k ≤ N` the resolver yields the element at index `k - 1`
paired with the tag flag, and if `k` is outside that range the token
yields nothing; a token whose base parses to no integer after deleting
every occurrence of `"lan"` is dropped, never raising; and the output is
the order-preserving filterMap of per-token resolution (so each token
contributes at most one pair, in input order). -/
theorem claim_C4_resolver {α : Type} (available : List α) :
    (∀ (ds : List Char) (tg : Bool), ds ≠ [] → (∀ c ∈ ds, c.isDigit = true) →
      (∀ (h1 : 1 ≤ digitsVal ds) (h2 : digitsVal ds ≤ available.length),
          resolveToken available (lanTok ds tg)
            = some (available.get ⟨digitsVal ds - 1, by omega⟩, tg))
      ∧ ((digitsVal ds = 0 ∨ available.length < digitsVal ds) →
          resolveToken available (lanTok ds tg) = none))
    ∧ (∀ (p : String),
        pyIntChars (pyReplace "lan".data [] ((pySplit1 ':' (p.data.map Char.toLower)).1))
          = none →
        resolveToken available p = none)
    ∧ (∀ (toks : List String),
        resolve_ports toks available = toks.filterMap (resolveToken available)) := by
  refine ⟨fun ds tg hne hdig => ⟨fun h1 h2 => ?_, fun hk => ?_⟩, fun p hnone => ?_,
    fun toks => resolve_ports_eq_filterMap available toks⟩
  · rw [resolveToken_lanTok available ds tg hne hdig]
    rw [if_pos (by constructor <;> omega)]
    have ht : ((digitsVal ds : Int) - 1).toNat = digitsVal ds - 1 := by omega
    rw [ht, List.getElem?_eq_getElem (by omega)]
    rfl
  · rw [resolveToken_lanTok available ds tg hne hdig]
    rw [if_neg (by rcases hk with hk | hk <;> omega)]
  · unfold resolveToken resolveTokenBase
    rw [hnone]
    split
    · rfl
    · rfl

/-- C4 (witness): with the available list `["eth1", "eth2"]`, the token
`lan2` resolves to `eth2` untagged, `lan9` resolves to nothing, and a
token list is resolved in order through the per-token resolution. -/
theorem claim_C4_witness :
    resolveToken ["eth1", "eth2"] (lanTok ['2'] false) = some ("eth2", false)
    ∧ resolveToken ["eth1", "eth2"] (lanTok ['9'] true) = none
    ∧ resolve_ports ["lan1", "lan2:t"] ["eth1", "eth2"]
        = List.filterMap (resolveToken ["eth1", "eth2"]) ["lan1", "lan2:t"] := by
  refine ⟨?_, ?_, (claim_C4_resolver ["eth1", "eth2"]).2.2 ["lan1", "lan2:t"]⟩
  · exact ((claim_C4_resolver ["eth1", "eth2"]).1 ['2'] false (by decide) (by decide)).1
      (by decide) (by decide)
  · exact ((claim_C4_resolver ["eth1", "eth2"]).1 ['9'] true (by decide) (by decide)).2
      (by decide)

-- ==================================================================
-- Claim C5 — exact-literal port match (code bug)
-- ==================================================================

/-- C5 (evaluation at the failing inputs): the claim — backed by the
spec and by the repository's own tests `test_dsa_direct_match` and
`test_swconfig_raw_number` — says a token that literally matches an
available port (`"eth2"` against `["eth1","eth2","eth3"]`, or `"2"`
against `[1,2,3]`) resolves to that port, tried before the `lan<N>`
interpretation.  The implementation has no literal-match branch at all:
any token whose lower-cased base does not start with `"lan"` is dropped
with a warning, so both calls return the empty list. -/
theorem claim_C5_eval :
    resolve_ports ["eth2"] ["eth1", "eth2", "eth3"] = ([] : List (String × Bool))
    ∧ resolve_ports ["2"] ([1, 2, 3] : List Int) = ([] : List (Int × Bool)) :=
  ⟨rfl, rfl⟩

-- ==================================================================
-- Allocator lemmas
-- ==================================================================

theorem range'_getElem? (s n i : Nat) :
    (List.range' s n)[i]? = if i < n then some (s + i) else none := by
  split
  · next h =>
    rw [List.getElem?_eq_getElem (by simpa using h)]
    simp [List.getElem_range']
  · next h =>
    exact List.getElem?_eq_none (by simpa using Nat.le_of_not_lt h)

theorem range'_drop (m s n : Nat) :
    (List.range' s n).drop m = List.range' (s + m) (n - m) := by
  induction m generalizing s n with
  | zero => simp
  | succ k ih =>
    cases n with
    | zero => simp
    | succ p =>
      rw [List.range'_succ, List.drop_succ_cons, ih (s + 1) p]
      congr 1 <;> omega

theorem alloc_loop_length (nets : List NetworkConfig) (pool : List Nat) :
    (alloc_loop nets pool).1.length = nets.length := by
  induction nets generalizing pool with
  | nil => rfl
  | cons net rest ih =>
    cases hp : net.ports.isEmpty with
    | true =>
      cases pool with
      | nil => simp only [alloc_loop, hp, if_pos]; simpa using ih []
      | cons a pool1 => simp only [alloc_loop, hp, if_pos]; simpa using ih pool1
    | false =>
      simp only [alloc_loop, hp, Bool.false_eq_true, if_false]
      simpa using ih pool

theorem alloc_loop_frame (nets : List NetworkConfig) (pool : List Nat) :
    ∀ (i : Nat) (n : NetworkConfig), nets[i]? = some n → ∃ suf,
      (alloc_loop nets pool).1[i]? = some { n with ports := n.ports ++ suf }
      ∧ (suf ≠ [] → n.ports = []) := by
  induction nets generalizing pool with
  | nil => intro i n hin; simp at hin
  | cons net rest ih =>
    intro i n hin
    cases hp : net.ports.isEmpty with
    | true =>
      cases pool with
      | nil =>
        simp only [alloc_loop, hp, if_pos]
        cases i with
        | zero =>
          simp only [List.getElem?_cons_zero, Option.some.injEq] at hin
          subst hin
          refine ⟨[], ?_, by simp⟩
          simp
        | succ j =>
          simp only [List.getElem?_cons_succ] at hin ⊢
          exact ih [] j n hin
      | cons a pool1 =>
        simp only [alloc_loop, hp, if_pos]
        cases i with
        | zero =>
          simp only [List.getElem?_cons_zero, Option.some.injEq] at hin
          subst hin
          exact ⟨["lan" ++ toString a], by simp, fun _ => List.isEmpty_iff.mp hp⟩
        | succ j =>
          simp only [List.getElem?_cons_succ] at hin ⊢
          exact ih pool1 j n hin
    | false =>
      simp only [alloc_loop, hp, Bool.false_eq_true, if_false]
      cases i with
      | zero =>
        simp only [List.getElem?_cons_zero, Option.some.injEq] at hin
        subst hin
        refine ⟨[], ?_, by simp⟩
        simp
      | succ j =>
        simp only [List.getElem?_cons_succ] at hin ⊢
        exact ih pool j n hin

theorem alloc_loop_empty (nets : List NetworkConfig) (pool : List Nat)
    (hempty : ∀ n ∈ nets, n.ports = []) :
    (alloc_loop nets pool).2 = pool.drop nets.length
    ∧ ∀ (i : Nat) (n : NetworkConfig), nets[i]? = some n →
        (alloc_loop nets pool).1[i]? =
          some { n with ports := (pool[i]?).toList.map (fun a => "lan" ++ toString a) } := by
  induction nets generalizing pool with
  | nil => exact ⟨by simp [alloc_loop], fun i n hin => by simp at hin⟩
  | cons net rest ih =>
    have hp : net.ports.isEmpty = true := by
      rw [List.isEmpty_iff]
      exact hempty net (List.mem_cons_self net rest)
    have hrest : ∀ n ∈ rest, n.ports = [] :=
      fun n hn => hempty n (List.mem_cons_of_mem net hn)
    cases pool with
    | nil =>
      refine ⟨?_, ?_⟩
      · simp only [alloc_loop, hp, if_pos]
        simpa using (ih [] hrest).1
      · intro i n hin
        simp only [alloc_loop, hp, if_pos]
        cases i with
        | zero =>
          simp only [List.getElem?_cons_zero, Option.some.injEq] at hin
          have hports : n.ports = [] := by
            rw [← hin]
            exact hempty net (List.mem_cons_self net rest)
          simp only [List.getElem?_cons_zero, Option.some.injEq]
          rw [hin]
          rw [show (([] : List Nat)[0]?).toList.map (fun a => "lan" ++ toString a)
              = ([] : List String) from rfl]
          rw [← hports]
        | succ j =>
          simp only [List.getElem?_cons_succ] at hin ⊢
          rw [(ih [] hrest).2 j n hin]
          simp
    | cons a pool1 =>
      refine ⟨?_, ?_⟩
      · simp only [alloc_loop, hp, if_pos]
        simpa using (ih pool1 hrest).1
      · intro i n hin
        simp only [alloc_loop, hp, if_pos]
        cases i with
        | zero =>
          simp only [List.getElem?_cons_zero, Option.some.injEq] at hin
          have hports : n.ports = [] := by
            rw [← hin]
            exact hempty net (List.mem_cons_self net rest)
          simp only [List.getElem?_cons_zero, Option.some.injEq]
          rw [hin, hports]
          rfl
        | succ j =>
          simp only [List.getElem?_cons_succ] at hin ⊢
          exact (ih pool1 hrest).2 j n hin

theorem alloc_loop_findIdx (nets : List NetworkConfig) (pool : List Nat) :
    (alloc_loop nets pool).1.findIdx (fun m => m.vlan_id == 1)
      = nets.findIdx (fun m => m.vlan_id == 1) := by
  induction nets generalizing pool with
  | nil => rfl
  | cons net rest ih =>
    cases hp : net.ports.isEmpty with
    | true =>
      cases pool with
      | nil =>
        simp only [alloc_loop, hp, if_pos]
        rw [List.findIdx_cons, List.findIdx_cons, ih []]
      | cons a pool1 =>
        simp only [alloc_loop, hp, if_pos]
        rw [List.findIdx_cons, List.findIdx_cons, ih pool1]
    | false =>
      simp only [alloc_loop, hp, Bool.false_eq_true, if_false]
      rw [List.findIdx_cons, List.findIdx_cons, ih pool]

theorem append_leftovers_length (nets : List NetworkConfig) (extras : List String) :
    (append_leftovers nets extras).length = nets.length := by
  induction nets with
  | nil => rfl
  | cons net rest ih =>
    by_cases hv : net.vlan_id = 1
    · simp [append_leftovers, hv]
    · simp [append_leftovers, hv, ih]

theorem append_leftovers_spec (nets : List NetworkConfig) (extras : List String) :
    ∀ (i : Nat) (n : NetworkConfig), nets[i]? = some n →
      (append_leftovers nets extras)[i]? =
        some (if i = nets.findIdx (fun m => m.vlan_id == 1)
              then { n with ports := n.ports ++ extras } else n) := by
  induction nets with
  | nil => intro i n hin; simp at hin
  | cons net rest ih =>
    intro i n hin
    by_cases hv : net.vlan_id = 1
    · have hfi : (net :: rest).findIdx (fun m => m.vlan_id == 1) = 0 := by
        rw [List.findIdx_cons]
        simp [hv]
      simp only [append_leftovers, if_pos hv, hfi]
      cases i with
      | zero =>
        simp only [List.getElem?_cons_zero, Option.some.injEq] at hin
        subst hin
        rw [if_pos rfl]
        simp
      | succ j =>
        simp only [List.getElem?_cons_succ] at hin ⊢
        rw [hin, if_neg (by omega)]
    · have hfi : (net :: rest).findIdx (fun m => m.vlan_id == 1)
          = rest.findIdx (fun m => m.vlan_id == 1) + 1 := by
        rw [List.findIdx_cons, beq_false_of_ne hv]
        rfl
      simp only [append_leftovers, if_neg hv, hfi]
      cases i with
      | zero =>
        simp only [List.getElem?_cons_zero, Option.some.injEq] at hin
        subst hin
        rw [if_neg (by omega)]
        simp
      | succ j =>
        simp only [List.getElem?_cons_succ] at hin ⊢
        rw [ih j n hin]
        by_cases hj : j = rest.findIdx (fun m => m.vlan_id == 1)
        · rw [if_pos hj, if_pos (by omega)]
        · rw [if_neg hj, if_neg (by omega)]

theorem append_leftovers_frame (nets : List NetworkConfig) (extras : List String) :
    ∀ (i : Nat) (n : NetworkConfig), nets[i]? = some n → ∃ suf,
      (append_leftovers nets extras)[i]? = some { n with ports := n.ports ++ suf }
      ∧ (suf ≠ [] → n.vlan_id = 1) := by
  induction nets with
  | nil => intro i n hin; simp at hin
  | cons net rest ih =>
    intro i n hin
    by_cases hv : net.vlan_id = 1
    · simp only [append_leftovers, if_pos hv]
      cases i with
      | zero =>
        simp only [List.getElem?_cons_zero, Option.some.injEq] at hin
        subst hin
        exact ⟨extras, by simp, fun _ => hv⟩
      | succ j =>
        simp only [List.getElem?_cons_succ] at hin ⊢
        refine ⟨[], ?_, fun hc => absurd rfl hc⟩
        rw [hin]
        simp
    · simp only [append_leftovers, if_neg hv]
      cases i with
      | zero =>
        simp only [List.getElem?_cons_zero, Option.some.injEq] at hin
        subst hin
        refine ⟨[], ?_, fun hc => absurd rfl hc⟩
        simp
      | succ j =>
        simp only [List.getElem?_cons_succ] at hin ⊢
        exact ih j n hin

-- ==================================================================
-- Claim C2 — automatic port allocation (confirmed)
-- ==================================================================

/-- C2: for every list of M networks all of whose `ports` lists are
empty and every profile with P detected LAN ports, allocation keeps the
list length and gives the network at index `i` exactly the ports
`lan<i+1>` when `i < P` (so exactly `min(M,P)` networks receive one
auto-assigned untagged token each, in declaration order, popped from the
front) and nothing otherwise; when `P > M` the indices `M+1 … P` are all
appended, ascending, to the first network whose `vlan_id = 1` (the
`findIdx` below equals the list length when no such network exists, so
the leftovers are then discarded). -/
theorem claim_C2_allocator (nets : List NetworkConfig) (hw : HardwareInfo)
    (hempty : ∀ n ∈ nets, n.ports = []) :
    (auto_allocate_ports nets hw).length = nets.length
    ∧ ∀ (i : Nat) (n : NetworkConfig), nets[i]? = some n →
        (auto_allocate_ports nets hw)[i]? = some
          { n with ports :=
              (if i < hw.lan_ports.length then ["lan" ++ toString (i + 1)] else [])
              ++ (if nets.length < hw.lan_ports.length
                    ∧ i = nets.findIdx (fun m => m.vlan_id == 1)
                  then (List.range' (nets.length + 1)
                          (hw.lan_ports.length - nets.length)).map
                        (fun j => "lan" ++ toString j)
                  else []) } := by
  simp only [auto_allocate_ports]
  by_cases hP : hw.lan_ports.length = 0
  · rw [if_pos hP]
    refine ⟨rfl, fun i n hin => ?_⟩
    rw [hin, if_neg (by omega), if_neg (by rintro ⟨h1, h2⟩; omega)]
    rw [show ([] : List String) ++ [] = ([] : List String) from rfl,
      ← hempty n (List.getElem?_mem hin)]
  · rw [if_neg hP]
    obtain ⟨hsnd, hfst⟩ := alloc_loop_empty nets (List.range' 1 hw.lan_ports.length) hempty
    rw [hsnd, range'_drop]
    by_cases hMP : hw.lan_ports.length ≤ nets.length
    · have hz : hw.lan_ports.length - nets.length = 0 := by omega
      rw [if_pos (by rw [hz]; rfl)]
      refine ⟨alloc_loop_length nets _, fun i n hin => ?_⟩
      rw [hfst i n hin, range'_getElem?]
      by_cases hiP : i < hw.lan_ports.length
      · rw [if_pos hiP, if_pos hiP, if_neg (by rintro ⟨h1, h2⟩; omega)]
        rw [show (1 : Nat) + i = i + 1 by omega]
        simp [Option.toList]
      · rw [if_neg hiP, if_neg hiP, if_neg (by rintro ⟨h1, h2⟩; omega)]
        simp [Option.toList]
    · have hlen0 : (List.range' (1 + nets.length)
          (hw.lan_ports.length - nets.length)).length
          = hw.lan_ports.length - nets.length := List.length_range' ..
      rw [if_neg (by
        rw [List.isEmpty_iff]
        intro hc
        rw [hc] at hlen0
        simp at hlen0
        omega)]
      refine ⟨by rw [append_leftovers_length, alloc_loop_length], fun i n hin => ?_⟩
      have hiM : i < nets.length := by
        by_contra hge
        rw [List.getElem?_eq_none (by omega)] at hin
        cases hin
      have hfstI := hfst i n hin
      have hbase : (List.range' 1 hw.lan_ports.length)[i]? = some (1 + i) := by
        rw [range'_getElem?, if_pos (by omega)]
      rw [hbase] at hfstI
      simp only [Option.toList, List.map_cons, List.map_nil] at hfstI
      rw [append_leftovers_spec _ _ i _ hfstI, alloc_loop_findIdx]
      by_cases hfi : i = nets.findIdx (fun m => m.vlan_id == 1)
      · rw [if_pos hfi, if_pos (show i < hw.lan_ports.length by omega),
          if_pos ⟨by omega, hfi⟩]
        rw [show (1 : Nat) + i = i + 1 by omega,
          show (1 : Nat) + nets.length = nets.length + 1 by omega]
      · rw [if_neg hfi, if_pos (show i < hw.lan_ports.length by omega),
          if_neg (by rintro ⟨h1, h2⟩; exact hfi h2)]
        rw [show (1 : Nat) + i = i + 1 by omega]
        simp

/-- C2 (witness): two port-less networks (guest, then the `vlan_id = 1`
LAN) against four detected ports: the allocation keeps the length, the
guest network gets `lan1`, and the LAN network gets `lan2` plus the
leftover `lan3`, `lan4` in ascending order. -/
theorem claim_C2_witness :
    (auto_allocate_ports [c2A, c2B] c2hw).length = 2
    ∧ (auto_allocate_ports [c2A, c2B] c2hw)[0]? = some { c2A with ports := ["lan1"] }
    ∧ (auto_allocate_ports [c2A, c2B] c2hw)[1]?
        = some { c2B with ports := ["lan2", "lan3", "lan4"] } := by
  have h := claim_C2_allocator [c2A, c2B] c2hw (by decide)
  refine ⟨h.1, ?_, ?_⟩
  · exact h.2 0 c2A rfl
  · exact h.2 1 c2B rfl

-- ==================================================================
-- Claim C9 — allocation frame property (confirmed)
-- ==================================================================

/-- C9: allocation only ever appends to a network's `ports` list, and it
appends a non-empty suffix only to a network whose ports were empty when
allocation started (the 1:1 pass) or whose `vlan_id` is 1 (the leftover
pass — so a `vlan_id = 1` network with user-pinned ports can still
receive appended leftovers); every other network, and every other field
of every network, is unchanged. -/
theorem claim_C9_frame (nets : List NetworkConfig) (hw : HardwareInfo) :
    (auto_allocate_ports nets hw).length = nets.length
    ∧ ∀ (i : Nat) (n : NetworkConfig), nets[i]? = some n → ∃ suf,
        (auto_allocate_ports nets hw)[i]? = some { n with ports := n.ports ++ suf }
        ∧ (suf ≠ [] → n.ports = [] ∨ n.vlan_id = 1) := by
  simp only [auto_allocate_ports]
  by_cases hP : hw.lan_ports.length = 0
  · rw [if_pos hP]
    refine ⟨rfl, fun i n hin => ⟨[], ?_, fun hc => absurd rfl hc⟩⟩
    rw [hin, List.append_nil]
  · rw [if_neg hP]
    by_cases hE : (alloc_loop nets (List.range' 1 hw.lan_ports.length)).2.isEmpty = true
    · rw [if_pos hE]
      refine ⟨alloc_loop_length nets _, fun i n hin => ?_⟩
      obtain ⟨suf, h1, hc1⟩ := alloc_loop_frame nets (List.range' 1 hw.lan_ports.length) i n hin
      exact ⟨suf, h1, fun hc => Or.inl (hc1 hc)⟩
    · rw [if_neg hE]
      refine ⟨by rw [append_leftovers_length, alloc_loop_length], fun i n hin => ?_⟩
      obtain ⟨suf1, h1, hc1⟩ := alloc_loop_frame nets (List.range' 1 hw.lan_ports.length) i n hin
      obtain ⟨suf2, h2, hc2⟩ := append_leftovers_frame
        (alloc_loop nets (List.range' 1 hw.lan_ports.length)).1
        ((alloc_loop nets (List.range' 1 hw.lan_ports.length)).2.map
          (fun j => "lan" ++ toString j)) i _ h1
      refine ⟨suf1 ++ suf2, ?_, fun hc => ?_⟩
      · rw [h2, List.append_assoc]
      · by_cases hs1 : suf1 = []
        · subst hs1
          have hs2 : suf2 ≠ [] := by simpa using hc
          exact Or.inr (hc2 hs2)
        · exact Or.inl (hc1 hs1)

/-- C9 (witness): a `vlan_id = 1` network with the user-pinned port list
`["lan1:t"]` against two detected ports: its other fields are unchanged
and its ports list becomes the pinned list with the leftover tokens
`lan1`, `lan2` appended — a pinned VLAN-1 network still receives
leftovers. -/
theorem claim_C9_witness :
    (auto_allocate_ports [c9net] c9hw)[0]?
        = some { c9net with ports := ["lan1:t", "lan1", "lan2"] }
    ∧ ∃ suf, (auto_allocate_ports [c9net] c9hw)[0]?
        = some { c9net with ports := c9net.ports ++ suf }
      ∧ (suf ≠ [] → c9net.ports = [] ∨ c9net.vlan_id = 1) :=
  ⟨by decide, (claim_C9_frame [c9net] c9hw).2 0 c9net rfl⟩

-- ==================================================================
-- Claims C6 and C7 — swconfig emission (confirmed)
-- ==================================================================

/-- C6: on the switch-chip profile with LAN ports 1,2,3, CPU 5, WAN 0,
`configure_vlan` emits the VLAN-port string `"1 2 3 5t"` for a port-less
VLAN-1 network and `"5t"` alone for a port-less VLAN-3 network; and in
general the tagged CPU token `<cpu>t` is a member of every emitted
VLAN-port string (it is the final space-separated token). -/
theorem claim_C6_cpu_tagged :
    swconfig_ports_str c6sw c6net1 = "1 2 3 5t"
    ∧ swconfig_ports_str c6sw c6net3 = "5t"
    ∧ ∀ (sw : SwitchInfo) (net : NetworkConfig), ∃ pre,
        swconfig_ports_str sw net = pre ++ (toString sw.cpu_port ++ "t")
        ∧ (pre = "" ∨ ∃ q, pre = q ++ " ") := by
  refine ⟨rfl, rfl, fun sw net => ?_⟩
  simp only [swconfig_ports_str]
  by_cases hp : net.ports ≠ []
  · rw [if_pos hp]
    exact ⟨String.intercalate " "
        ((resolve_ports net.ports sw.lan_ports).map
          (fun a => if a.2 then toString a.1 ++ "t" else toString a.1)) ++ " ",
      by rw [String.append_assoc], Or.inr ⟨_, rfl⟩⟩
  · rw [if_neg hp]
    by_cases hv : net.vlan_id = 1
    · rw [if_pos hv]
      exact ⟨String.intercalate " " (sw.lan_ports.map (fun p => toString p)) ++ " ",
        by rw [String.append_assoc], Or.inr ⟨_, rfl⟩⟩
    · rw [if_neg hv]
      exact ⟨"", rfl, Or.inl rfl⟩

/-- C7: the switch-chip `configure_base` emits, after the four switch
section operations, a VLAN-2 `switch_vlan` entry whose ports string is
`"<wan> <cpu>t"` exactly when the WAN port differs from the CPU port;
when they are equal the emission is the four switch section operations
alone, with no `switch_vlan` entry.  (The Python guard also tests
`wan_port is not None`, which is always true: the field is an `int` on
every detection path.) -/
theorem claim_C7_wan_preservation (sw : SwitchInfo) :
    (sw.wan_port ≠ sw.cpu_port →
      swconfig_configure_base sw =
        [UciOp.set ("network." ++ sw.name) "switch",
         UciOp.set ("network." ++ sw.name ++ ".name") sw.name,
         UciOp.set ("network." ++ sw.name ++ ".reset") "1",
         UciOp.set ("network." ++ sw.name ++ ".enable_vlan") "1",
         UciOp.add "network" "switch_vlan",
         UciOp.set "network.@switch_vlan[-1].device" sw.name,
         UciOp.set "network.@switch_vlan[-1].vlan" "2",
         UciOp.set "network.@switch_vlan[-1].ports"
           (toString sw.wan_port ++ " " ++ toString sw.cpu_port ++ "t")])
    ∧ (sw.wan_port = sw.cpu_port →
      swconfig_configure_base sw =
        [UciOp.set ("network." ++ sw.name) "switch",
         UciOp.set ("network." ++ sw.name ++ ".name") sw.name,
         UciOp.set ("network." ++ sw.name ++ ".reset") "1",
         UciOp.set ("network." ++ sw.name ++ ".enable_vlan") "1"]) := by
  constructor
  · intro hne
    simp only [swconfig_configure_base, if_pos hne]
    rfl
  · intro heq
    simp only [swconfig_configure_base]
    rw [if_neg (show ¬ sw.wan_port ≠ sw.cpu_port from fun hc => hc heq)]
    simp

/-- C7 (witness): on the scenario chip (WAN 0, CPU 5) the VLAN-2 entry
with ports `"0 5t"` is emitted after the switch section; on the same
chip with WAN = CPU = 5 only the four switch section operations are
emitted. -/
theorem claim_C7_witness :
    swconfig_configure_base c6sw =
      [UciOp.set "network.switch0" "switch",
       UciOp.set "network.switch0.name" "switch0",
       UciOp.set "network.switch0.reset" "1",
       UciOp.set "network.switch0.enable_vlan" "1",
       UciOp.add "network" "switch_vlan",
       UciOp.set "network.@switch_vlan[-1].device" "switch0",
       UciOp.set "network.@switch_vlan[-1].vlan" "2",
       UciOp.set "network.@switch_vlan[-1].ports" "0 5t"]
    ∧ swconfig_configure_base c7swEq =
      [UciOp.set "network.switch0" "switch",
       UciOp.set "network.switch0.name" "switch0",
       UciOp.set "network.switch0.reset" "1",
       UciOp.set "network.switch0.enable_vlan" "1"] :=
  ⟨(claim_C7_wan_preservation c6sw).1 (by decide),
   (claim_C7_wan_preservation c7swEq).2 rfl⟩

-- ==================================================================
-- String order facts and claim C8 — sorted LAN port lists
-- ==================================================================

theorem charsLe_total : ∀ (a b : List Char), charsLe a b = true ∨ charsLe b a = true := by
  intro a
  induction a with
  | nil => intro b; exact Or.inl rfl
  | cons c as ih =>
    intro b
    cases b with
    | nil => exact Or.inr rfl
    | cons d bs =>
      rcases lt_trichotomy c d with hcd | hcd | hcd
      · left
        simp [charsLe, hcd]
      · subst hcd
        rcases ih bs with h | h
        · left
          simp [charsLe, h]
        · right
          simp [charsLe, h]
      · right
        simp [charsLe, hcd]

theorem charsLe_trans : ∀ (a b c : List Char),
    charsLe a b = true → charsLe b c = true → charsLe a c = true := by
  intro a
  induction a with
  | nil => intro b c h1 h2; rfl
  | cons x as ih =>
    intro b c h1 h2
    cases b with
    | nil => simp [charsLe] at h1
    | cons y bs =>
      cases c with
      | nil => simp [charsLe] at h2
      | cons z cs =>
        simp only [charsLe] at h1 h2 ⊢
        by_cases hxy : x < y
        · by_cases hyz : y < z
          · rw [if_pos (lt_trans hxy hyz)]
          · rw [if_neg hyz] at h2
            by_cases hyz2 : y = z
            · subst hyz2
              rw [if_pos hxy]
            · rw [if_neg hyz2] at h2
              cases h2
        · rw [if_neg hxy] at h1
          by_cases hxy2 : x = y
          · subst hxy2
            rw [if_pos rfl] at h1
            by_cases hxz : x < z
            · rw [if_pos hxz]
            · rw [if_neg hxz] at h2 ⊢
              by_cases heq : x = z
              · rw [if_pos heq] at h2 ⊢
                exact ih bs cs h1 h2
              · rw [if_neg heq] at h2
                cases h2
          · rw [if_neg hxy2] at h1
            cases h1

instance : IsTotal String (fun a b => strLe a b = true) :=
  ⟨fun a b => charsLe_total a.data b.data⟩

instance : IsTrans String (fun a b => strLe a b = true) :=
  ⟨fun a b c => charsLe_trans a.data b.data c.data⟩

/-- C8: every `HardwareInfo` that detection returns — on the export
default, the swconfig path and both DSA paths, fallback defaults
included — has its DSA LAN port list sorted ascending in the code-point
lexicographic string order, and its switch-chip LAN port list (when a
switch is present) sorted ascending numerically. -/
theorem claim_C8_sorted (uci : UciExecutor) (hw : HardwareInfo)
    (h : detect_hardware uci = .ok hw) :
    List.Sorted (fun a b => strLe a b = true) hw.lan_ports
    ∧ ∀ sw, hw.switch = some sw → List.Sorted (· ≤ ·) sw.lan_ports := by
  unfold detect_hardware at h
  by_cases hexp : uci.is_export = true
  · rw [if_pos hexp] at h
    have hw_eq : hw = DSA_DEFAULTS := by
      cases h
      rfl
    subst hw_eq
    exact ⟨by decide, fun sw hsw => by cases hsw⟩
  · rw [if_neg hexp] at h
    by_cases hsw : detect_is_swconfig uci = true
    · rw [if_pos hsw] at h
      unfold detect_swconfig at h
      cases hscan : swconfig_scan uci with
      | error e =>
        rw [hscan] at h
        cases h
      | ok s2 =>
        rw [hscan] at h
        simp only [Except.map, Except.ok.injEq] at h
        subst h
        simp only [detect_swconfig_post]
        refine ⟨List.sorted_nil, fun sw hswi => ?_⟩
        simp only [Option.some.injEq] at hswi
        subst hswi
        exact List.sorted_insertionSort _ _
    · rw [if_neg hsw] at h
      have hdsa : hw = detect_dsa uci := by
        by_cases hd : detect_is_dsa_config uci = true
        · rw [if_pos hd] at h
          cases h
          rfl
        · rw [if_neg hd] at h
          cases h
          rfl
      subst hdsa
      exact ⟨List.sorted_insertionSort _ _, fun sw hswi => by cases hswi⟩

/-- C8 (witness): the export-mode default profile is sorted — its DSA
LAN list is `["eth1", "eth2"]` and it has no switch chip. -/
theorem claim_C8_witness :
    List.Sorted (fun a b => strLe a b = true) DSA_DEFAULTS.lan_ports
    ∧ ∀ sw, DSA_DEFAULTS.switch = some sw → List.Sorted (· ≤ ·) sw.lan_ports :=
  claim_C8_sorted uciExport DSA_DEFAULTS rfl

-- ==================================================================
-- Ghost-guard lemmas and claims C10, C3, C1
-- ==================================================================

theorem ghost_guard_cpu (uci : UciExecutor) (name : String) (s : SwScan) :
    (ghost_guard uci name s).cpu_port = s.cpu_port := by
  simp only [ghost_guard]
  split
  · split
    · rfl
    · split <;> rfl
  · rfl

theorem ghost_guard_wan (uci : UciExecutor) (name : String) (s : SwScan) :
    (ghost_guard uci name s).wan_port = s.wan_port := by
  simp only [ghost_guard]
  split
  · split
    · rfl
    · split <;> rfl
  · rfl

theorem ghost_guard_skip (uci : UciExecutor) (name : String) (s : SwScan)
    (hlen : 2 ≤ s.lan_ports.length) :
    ghost_guard uci name s = s := by
  unfold ghost_guard
  rw [if_neg (by omega)]

theorem ghost_guard_probe (uci : UciExecutor) (name : String) (s : SwScan)
    (hlen : s.lan_ports.length ≤ 1)
    (hne : detect_swconfig_ports_from_cli uci name ≠ [])
    (hkeep : (detect_swconfig_ports_from_cli uci name).filter
        (fun p => p != s.cpu_port && p != s.wan_port) ≠ []) :
    ghost_guard uci name s =
      { s with lan_ports := (detect_swconfig_ports_from_cli uci name).filter (fun p => p != s.cpu_port && p != s.wan_port) } := by
  unfold ghost_guard
  rw [if_pos hlen,
    if_neg (show ¬ (detect_swconfig_ports_from_cli uci name).isEmpty = true from
      fun hc => hne (List.isEmpty_iff.mp hc)),
    if_neg (show ¬ ((detect_swconfig_ports_from_cli uci name).filter
        (fun p => p != s.cpu_port && p != s.wan_port)).isEmpty = true from
      fun hc => hkeep (List.isEmpty_iff.mp hc))]

theorem ghost_guard_empty_lan (uci : UciExecutor) (name : String) (s : SwScan)
    (hl : s.lan_ports = []) :
    (ghost_guard uci name s).lan_ports =
      (if ((detect_swconfig_ports_from_cli uci name).filter
            (fun p => p != s.cpu_port && p != s.wan_port)).isEmpty
       then []
       else (detect_swconfig_ports_from_cli uci name).filter
            (fun p => p != s.cpu_port && p != s.wan_port)) := by
  unfold ghost_guard
  rw [if_pos (by rw [hl]; simp)]
  by_cases hpe : (detect_swconfig_ports_from_cli uci name).isEmpty = true
  · rw [if_pos hpe]
    rw [List.isEmpty_iff.mp hpe]
    simp [hl]
  · rw [if_neg hpe]
    by_cases hke : ((detect_swconfig_ports_from_cli uci name).filter
        (fun p => p != s.cpu_port && p != s.wan_port)).isEmpty = true
    · rw [if_pos hke, if_pos hke, hl]
    · rw [if_neg hke, if_neg hke]

theorem cpu_interface_of_congr {uci1 uci2 : UciExecutor}
    (hq : uci1.query = uci2.query) (w : String) :
    cpu_interface_of uci1 w = cpu_interface_of uci2 w := by
  unfold cpu_interface_of
  rw [hq]

theorem ghost_guard_probe_lan (uci : UciExecutor) (name : String) (s : SwScan)
    (hlen : s.lan_ports.length ≤ 1)
    (hne : detect_swconfig_ports_from_cli uci name ≠ [])
    (hkeep : (detect_swconfig_ports_from_cli uci name).filter
        (fun p => p != s.cpu_port && p != s.wan_port) ≠ []) :
    (ghost_guard uci name s).lan_ports =
      (detect_swconfig_ports_from_cli uci name).filter
        (fun p => p != s.cpu_port && p != s.wan_port) := by
  rw [ghost_guard_probe uci name s hlen hne hkeep]

-- ==================================================================
-- Claim C10 — hardcoded CPU/WAN defaults (confirmed)
-- ==================================================================

/-- C10: when the live configuration yields no switch_vlan ports entries
(query falsy) and the VLAN-2 ports query is falsy too, the resulting
switch info carries the hardcoded defaults `cpu_port = 0` and
`wan_port = 5`, and its LAN list is exactly the CLI-probed port set minus
those two defaults (sorted), falling back to `[1,2,3,4]` when that
difference is empty. -/
theorem claim_C10_defaults (uci : UciExecutor)
    (h1 : pyTruthy (uci.query "show network | grep 'switch_vlan.*ports='") = false)
    (h2 : pyTruthy (uci.query "get network.@switch_vlan[1].ports") = false) :
    detect_swconfig uci = Except.ok
      { mode := "swconfig",
        wan_interface := pyOrStr (uci.query "get network.wan.ifname") "eth0",
        lan_ports := [],
        switch := some
          { name := pyOrStr (uci.query "get network.@switch[0].name") "switch0",
            cpu_port := 0,
            cpu_interface :=
              cpu_interface_of uci (pyOrStr (uci.query "get network.wan.ifname") "eth0"),
            lan_ports :=
              (if (cliKeep uci).isEmpty then [1, 2, 3, 4]
               else List.insertionSort (· ≤ ·) (cliKeep uci)),
            wan_port := 5 } } := by
  have hscan : swconfig_scan uci
      = .ok { cpu_port := 0, lan_ports := [], wan_port := 5 } := by
    unfold swconfig_scan
    rw [show parse_vlan_configs (uci.query "show network | grep 'switch_vlan.*ports='")
        = [] by
      unfold parse_vlan_configs
      rw [h1]
      rfl]
    rw [show scan_vlan_ports [] { cpu_port := 0, lan_ports := [], wan_port := 5 }
        = Except.ok { cpu_port := 0, lan_ports := [], wan_port := 5 } from rfl]
    show Except.ok (scan_vlan2 (uci.query "get network.@switch_vlan[1].ports")
        { cpu_port := 0, lan_ports := [], wan_port := 5 }) = _
    rw [show scan_vlan2 (uci.query "get network.@switch_vlan[1].ports")
          { cpu_port := 0, lan_ports := [], wan_port := 5 }
        = { cpu_port := 0, lan_ports := [], wan_port := 5 } by
      unfold scan_vlan2
      rw [h2]
      rfl]
  have hlan2 : (ghost_guard uci
        (pyOrStr (uci.query "get network.@switch[0].name") "switch0")
        { cpu_port := 0, lan_ports := [], wan_port := 5 }).lan_ports
      = (if (cliKeep uci).isEmpty then [] else cliKeep uci) :=
    ghost_guard_empty_lan uci _ _ rfl
  unfold detect_swconfig
  rw [hscan]
  show Except.ok (detect_swconfig_post uci
      { cpu_port := 0, lan_ports := [], wan_port := 5 }) = _
  simp only [detect_swconfig_post]
  rw [ghost_guard_cpu, ghost_guard_wan, hlan2]
  by_cases hke : (cliKeep uci).isEmpty = true
  · rw [List.isEmpty_iff.mp hke]
    rfl
  · rw [if_neg hke, if_neg hke, if_neg hke]

/-- C10 (witness): a collaborator whose queries all fail and whose chip
enumeration reports ports 0, 1 and 4 yields CPU 0, WAN 5 and the LAN
list `[1, 4]` (the probed set minus the defaults 0 and 5). -/
theorem claim_C10_witness :
    detect_swconfig c10uci = Except.ok
      { mode := "swconfig", wan_interface := "eth0", lan_ports := [],
        switch := some
          { name := "switch0", cpu_port := 0, cpu_interface := "eth0",
            lan_ports := [1, 4], wan_port := 5 } } := by
  have h := claim_C10_defaults c10uci rfl rfl
  exact h

-- ==================================================================
-- Claim C3 — ghost-port guard (corrected)
-- ==================================================================

/-- C3 (counterexample to the claim as stated): the declared
configuration yields the single candidate LAN port 1 (CPU 5, WAN 0) and
the secondary probe returns the non-empty port set `[0, 5]`, so by the
claim the LAN set must become `[0,5] \ {5, 0} = []`; the implementation
instead keeps the candidate `[1]`, because it only adopts the probed
difference when that difference is non-empty. -/
theorem claim_C3_counterexample :
    swconfig_scan c3cexUci = .ok { cpu_port := 5, lan_ports := [1], wan_port := 0 }
    ∧ ({ cpu_port := 5, lan_ports := [1], wan_port := 0 } : SwScan).lan_ports.length ≤ 1
    ∧ detect_swconfig_ports_from_cli c3cexUci "switch0" = [0, 5]
    ∧ ([0, 5] : List Int) ≠ []
    ∧ detect_swconfig c3cexUci = Except.ok
        { mode := "swconfig", wan_interface := "eth0", lan_ports := [],
          switch := some
            { name := "switch0", cpu_port := 5, cpu_interface := "eth0",
              lan_ports := [1], wan_port := 0 } }
    ∧ ([1] : List Int) ≠ ([0, 5] : List Int).filter (fun p => p != (5 : Int) && p != 0) :=
  ⟨rfl, by decide, rfl, by decide, rfl, by decide⟩

/-- C3 (amended): (a) whenever the candidate LAN set gathered from the
configured VLAN entries has two or more members, the result of
switch-chip detection does not depend on the shell capability at all —
the secondary CLI probe is never consulted; (b) whenever that set has at
most one member, the probe returns a non-empty port set, and the probed
set minus the CPU and WAN ports is non-empty, the detected LAN set
becomes exactly that difference (sorted ascending); when the difference
is empty the candidate set is kept instead (see the counterexample). -/
theorem claim_C3_ghost_guard :
    (∀ (uci1 uci2 : UciExecutor) (s : SwScan),
        uci1.query = uci2.query →
        swconfig_scan uci1 = .ok s →
        2 ≤ s.lan_ports.length →
        detect_swconfig uci1 = detect_swconfig uci2)
    ∧ (∀ (uci : UciExecutor) (s : SwScan),
        swconfig_scan uci = .ok s →
        s.lan_ports.length ≤ 1 →
        detect_swconfig_ports_from_cli uci
          (pyOrStr (uci.query "get network.@switch[0].name") "switch0") ≠ [] →
        (detect_swconfig_ports_from_cli uci
            (pyOrStr (uci.query "get network.@switch[0].name") "switch0")).filter
          (fun p => p != s.cpu_port && p != s.wan_port) ≠ [] →
        ∃ hw sw, detect_swconfig uci = .ok hw ∧ hw.switch = some sw
          ∧ sw.lan_ports = List.insertionSort (· ≤ ·)
              ((detect_swconfig_ports_from_cli uci
                  (pyOrStr (uci.query "get network.@switch[0].name") "switch0")).filter
                (fun p => p != s.cpu_port && p != s.wan_port))) := by
  constructor
  · intro uci1 uci2 s hq hscan hlen
    have hscan2 : swconfig_scan uci2 = .ok s := by
      unfold swconfig_scan
      rw [← hq]
      exact hscan
    have hpost : detect_swconfig_post uci1 s = detect_swconfig_post uci2 s := by
      simp only [detect_swconfig_post]
      rw [hq, ghost_guard_skip _ _ _ hlen, ghost_guard_skip _ _ _ hlen,
        cpu_interface_of_congr hq]
    calc detect_swconfig uci1 = .ok (detect_swconfig_post uci1 s) := by
          unfold detect_swconfig
          rw [hscan]
          rfl
      _ = .ok (detect_swconfig_post uci2 s) := by rw [hpost]
      _ = detect_swconfig uci2 := by
          unfold detect_swconfig
          rw [hscan2]
          rfl
  · intro uci s hscan hlen hne hkeep
    have hdet : detect_swconfig uci = .ok (detect_swconfig_post uci s) := by
      unfold detect_swconfig
      rw [hscan]
      rfl
    have hkf : ¬ ((detect_swconfig_ports_from_cli uci
          (pyOrStr (uci.query "get network.@switch[0].name") "switch0")).filter
        (fun p => p != s.cpu_port && p != s.wan_port)).isEmpty = true :=
      fun hc => hkeep (List.isEmpty_iff.mp hc)
    have hswitch : (detect_swconfig_post uci s).switch = some
        { name := pyOrStr (uci.query "get network.@switch[0].name") "switch0",
          cpu_port := s.cpu_port,
          cpu_interface :=
            cpu_interface_of uci (pyOrStr (uci.query "get network.wan.ifname") "eth0"),
          lan_ports := List.insertionSort (· ≤ ·)
            ((detect_swconfig_ports_from_cli uci
                (pyOrStr (uci.query "get network.@switch[0].name") "switch0")).filter
              (fun p => p != s.cpu_port && p != s.wan_port)),
          wan_port := s.wan_port } := by
      simp only [detect_swconfig_post]
      rw [ghost_guard_cpu, ghost_guard_wan,
        ghost_guard_probe_lan uci _ s hlen hne hkeep, if_neg hkf]
    exact ⟨detect_swconfig_post uci s, _, hdet, hswitch, rfl⟩

/-- C3 (witness): with three declared LAN ports the detection result is
the same whether the shell capability fails or would report eight chip
ports; and with one declared LAN port and a probe reporting ports 0–5,
the LAN set becomes `[1, 2, 3, 4]` — the probed set minus CPU 5 and
WAN 0. -/
theorem claim_C3_witness :
    detect_swconfig c3wUciA = detect_swconfig c3wUciB
    ∧ ∃ hw sw, detect_swconfig c3wUciC = .ok hw ∧ hw.switch = some sw
        ∧ sw.lan_ports = List.insertionSort (· ≤ ·)
            ((detect_swconfig_ports_from_cli c3wUciC
                (pyOrStr (c3wUciC.query "get network.@switch[0].name") "switch0")).filter
              (fun p => p != (5 : Int) && p != 0)) :=
  ⟨claim_C3_ghost_guard.1 c3wUciA c3wUciB
      { cpu_port := 5, lan_ports := [1, 2, 3], wan_port := 0 } rfl rfl (by decide),
   claim_C3_ghost_guard.2 c3wUciC
      { cpu_port := 5, lan_ports := [1], wan_port := 0 } rfl (by decide)
      (by decide) (by decide)⟩

-- ==================================================================
-- Claim C1 — detection can raise on a malformed tag token (code bug)
-- ==================================================================

/-- C1 (evaluation at the failing input): a live configuration whose
switch_vlan ports hold the malformed tag-marked token `xt` makes
`detect_hardware` raise `ValueError` from the bare `int(token[:-1])`
call (the non-tag branch is wrapped in `try`/`except`, the tag branch is
not), instead of degrading to a default as the claim — and the module's
own fallback documentation — requires. -/
theorem claim_C1_eval :
    detect_hardware c1uci
      = Except.error "invalid literal for int() with base 10: x" := rfl
